import Mathlib

/-!
Shallow embedding of the retrieval-augmented-generation core of the
chat-with-documents service, translated from `app/services/rag_service.py`,
`app/api/v1/chat.py` and `app/api/v1/documents.py`.

External collaborators (ChromaDB, Redis, MinIO/S3, the generation model,
the langchain retrievers) are modelled as explicit state (association
lists) or as oracles supplied to the embedded functions; the control flow
of the repository's own code is translated line by line.
-/

namespace ChatDocs

/-- A chunk as stored in the dense (Chroma) index: its text and the
metadata attached by `process_document` (`document_id`, optional
`source` label). -/
structure Chunk where
  page_content : String
  document_id : String
  source : Option String
deriving DecidableEq, Repr

/-- A citation entry as built by `query` / `stream_query`
(`{"content": ..., "source": ...}`). -/
structure SourceInfo where
  content : String
  source : String
deriving DecidableEq, Repr

/-- The persisted `BM25Retriever` object: built by
`BM25Retriever.from_documents(all_docs, k=5)` from all chunks read out of
the dense index. -/
structure BM25Retriever where
  docs : List Chunk
  k : Nat
deriving DecidableEq, Repr

/-- A stored blob in object storage under the BM25 key: either a pickle
that deserializes to a `BM25Retriever`, or bytes on which `pickle.loads`
raises (a corrupt snapshot). -/
inductive Blob where
  | valid (r : BM25Retriever)
  | corrupt
deriving DecidableEq, Repr

/-- MinIO object storage, modelled as an association list from object key
to stored blob (`storage_service.py` is a thin wrapper over S3
put/get/delete by key). -/
abbrev Storage := List (String × Blob)

/-- `storage_service.delete_file`: removes the object stored under a key. -/
def storage_delete_file (key : String) (s : Storage) : Storage :=
  s.filter fun kv => kv.1 ≠ key

/-- `storage_service.upload_in_memory_object`: stores bytes under a key,
overwriting any previous object at that key (S3 put semantics). -/
def storage_upload (key : String) (b : Blob) (s : Storage) : Storage :=
  (key, b) :: storage_delete_file key s

/-- `storage_service.download_in_memory_object`: fetches the object under
a key, or `none` when absent. -/
def storage_lookup (key : String) (s : Storage) : Option Blob :=
  (s.find? fun kv => kv.1 = key).map (·.2)

/-- A Redis answer-cache entry: key string, cached answer and sources,
and the absolute expiry instant set by `set(..., ex=3600)`. -/
structure CacheEntry where
  key : String
  answer : String
  sources : List SourceInfo
  expiresAt : Nat
deriving DecidableEq, Repr

/-- The Redis answer cache, modelled as a list of entries (most recent
write first). -/
abbrev Cache := List CacheEntry

/-- The key namespace of a project's answer-cache entries:
`"rag_cache:{project_id}:"`, the prefix scanned by
`_invalidate_query_cache` and prepended by `query`. -/
def cacheKeyNamespace (projectId : String) : String :=
  "rag_cache:" ++ projectId ++ ":"

/-- Whether a cache key matches the glob pattern
`"rag_cache:{project_id}:*"` handed to the Redis scan: exactly the keys
whose character sequence begins with the project's namespace. -/
def key_in_namespace (projectId key : String) : Bool :=
  (cacheKeyNamespace projectId).data.isPrefixOf key.data

/-- Deterministic digest of the query text, modelling
`hashlib.sha256(message.encode()).hexdigest()`. The real SHA-256 is a
library primitive outside this repository; the claims depend only on the
digest being a deterministic function of the message's byte sequence, so
it is modelled by an executable deterministic digest of the characters
(reduced modulo 2 ^ 64). -/
def sha256_hexdigest (message : String) : String :=
  toString (message.foldl (fun h c => (h * 131 + c.toNat) % 2 ^ 64) 5381)

/-- The answer-cache key built in `RAGService.query`:
`f"rag_cache:{self.project.id}:{hashlib.sha256(message.encode()).hexdigest()}"`. -/
def cache_key (projectId message : String) : String :=
  cacheKeyNamespace projectId ++ sha256_hexdigest message

/-- Redis `get` on the answer cache at time `now`: returns the cached
(answer, sources) pair if the key is present and unexpired. -/
def redis_get (key : String) (now : Nat) (c : Cache) :
    Option (String × List SourceInfo) :=
  match c.find? fun e => e.key = key with
  | some e => if now < e.expiresAt then some (e.answer, e.sources) else none
  | none => none

/-- Redis `set(key, value, ex=3600)` at time `now`: stores the entry with
a one-hour time-to-live, replacing any previous entry at that key. -/
def redis_set (key answer : String) (sources : List SourceInfo) (now : Nat)
    (c : Cache) : Cache :=
  { key := key, answer := answer, sources := sources, expiresAt := now + 3600 } ::
    c.filter fun e => e.key ≠ key

/-- The state of the Redis client during `_invalidate_query_cache`:
`ok` (client present, scan and delete succeed), `unavailable`
(`self.redis_client` is `None` because the ping at construction failed,
so the method returns at its guard), or `scanFails` (the scan/delete
raises and the method's own `except` swallows it). -/
inductive RedisOracle where
  | ok
  | unavailable
  | scanFails
deriving DecidableEq, Repr

/-- `RAGService._invalidate_query_cache`: returns at once when the Redis
client is `None`; otherwise scans for every key matching
`"rag_cache:{project_id}:*"` and deletes the matching entries, catching
and logging any exception — so on `unavailable` and on `scanFails` the
cache is left untouched while the caller continues normally. -/
def invalidate_query_cache (projectId : String) (redis : RedisOracle)
    (c : Cache) : Cache :=
  match redis with
  | .ok => c.filter fun e => ! key_in_namespace projectId e.key
  | .unavailable => c
  | .scanFails => c

/-- The cache entries that belong to one project's key namespace (what a
prefix scan for `"rag_cache:{project_id}:*"` would return). -/
def collection_cache_entries (projectId : String) (c : Cache) : Cache :=
  c.filter fun e => key_in_namespace projectId e.key

/-- The mutable per-project state touched by `RAGService`: the dense
(Chroma) collection and the Redis answer cache. -/
structure RagState where
  chunks : List Chunk
  cache : Cache
deriving DecidableEq, Repr

/-- `RAGService.process_document`, translated from the point after the
external loader and splitter have produced the chunk list. `rawChunks`
carries each chunk's text and its loader-set `source` metadata (if any);
the code returns without mutating anything when no chunks were produced,
and otherwise stamps `document_id`, applies
`metadata.setdefault('source', url or file_name)`, adds the chunks to the
dense index and calls `_invalidate_query_cache` — which silently does
nothing when the Redis client is absent or its scan/delete raises, while
the ingestion still completes. -/
def process_document (projectId document_id source_default : String)
    (redis : RedisOracle) (rawChunks : List (String × Option String))
    (st : RagState) : RagState :=
  if rawChunks = [] then st
  else
    let newChunks := rawChunks.map fun rc =>
      { page_content := rc.1, document_id := document_id,
        source := some (rc.2.getD source_default) : Chunk }
    { chunks := st.chunks ++ newChunks,
      cache := invalidate_query_cache projectId redis st.cache }

/-- Which external call inside `delete_document_chunks` fails, if any:
`ok` (no failure), `chromaFails` (the Chroma get/delete raises, caught by
the method's own `except`), or `redisFails` (the Chroma delete succeeds
but `_invalidate_query_cache` leaves the cache untouched — its client is
`None` or its scan/delete raises and is caught there). -/
inductive ChromaOracle where
  | ok
  | chromaFails
  | redisFails
deriving DecidableEq, Repr

/-- `RAGService.delete_document_chunks`: looks up the ids of all chunks
whose metadata matches `document_id`, returns unchanged when there are
none, otherwise deletes them and invalidates the project's query caches.
Every exception is caught and logged, so the function always returns a
state and never propagates an error. -/
def delete_document_chunks (projectId document_id : String) (o : ChromaOracle)
    (st : RagState) : RagState :=
  match o with
  | .chromaFails => st
  | .redisFails =>
    let ids_to_delete := st.chunks.filter fun c => c.document_id = document_id
    if ids_to_delete = [] then st
    else
      { chunks := st.chunks.filter fun c => c.document_id ≠ document_id,
        cache := invalidate_query_cache projectId RedisOracle.scanFails
          st.cache }
  | .ok =>
    let ids_to_delete := st.chunks.filter fun c => c.document_id = document_id
    if ids_to_delete = [] then st
    else
      { chunks := st.chunks.filter fun c => c.document_id ≠ document_id,
        cache := invalidate_query_cache projectId RedisOracle.ok st.cache }

/-- `RAGService._get_bm25_retriever_storage_key`: the single fixed blob
key for a project's BM25 snapshot. -/
def get_bm25_retriever_storage_key (projectId : String) : String :=
  "_internal/" ++ projectId ++ "/bm25_retriever.pkl"

/-- `RAGService._get_all_project_docs_from_chroma`: reads every chunk
currently in the project's dense index (a full `vectorstore.get`). -/
def get_all_project_docs_from_chroma (st : RagState) : List Chunk :=
  st.chunks

/-- `RAGService.rebuild_and_persist_bm25_index`: reads all chunks from
the dense index; when there are none it deletes the stored blob, and
otherwise builds `BM25Retriever.from_documents(all_docs, k=5)`, pickles
it and uploads it under the fixed storage key. -/
def rebuild_and_persist_bm25_index (projectId : String) (st : RagState)
    (storage : Storage) : Storage :=
  let all_docs := get_all_project_docs_from_chroma st
  let storage_key := get_bm25_retriever_storage_key projectId
  if all_docs = [] then storage_delete_file storage_key storage
  else storage_upload storage_key (Blob.valid { docs := all_docs, k := 5 }) storage

/-- `RAGService._load_bm25_retriever`: downloads the blob at the fixed
key; returns the deserialized retriever on success, and `none` both when
the blob is absent and when `pickle.loads` raises (the exception is
caught and logged). -/
def load_bm25_retriever (projectId : String) (storage : Storage) :
    Option BM25Retriever :=
  match storage_lookup (get_bm25_retriever_storage_key projectId) storage with
  | some (Blob.valid r) => some r
  | some Blob.corrupt => none
  | none => none

/-- The retriever built by `_get_retriever`: either the weighted ensemble
of BM25 and vector retrieval, or vector-only. -/
inductive Retriever where
  | ensemble (bm25 : BM25Retriever) (k : Nat)
  | vectorOnly (k : Nat)
deriving DecidableEq, Repr

/-- `RAGService._get_retriever`: loads the persisted BM25 retriever and
pairs it 0.5/0.5 with the vector retriever (`k=5`) when present, falling
back to the vector retriever alone otherwise. -/
def get_retriever (projectId : String) (storage : Storage) : Retriever :=
  match load_bm25_retriever projectId storage with
  | some r => .ensemble r 5
  | none => .vectorOnly 5

/-- Modelled from the spec: the external `EnsembleRetriever` (a langchain
class, not part of this repository) combines the sparse and dense ranked
lists with the configured 0.5/0.5 weights into a single de-duplicated
ranked list keyed by chunk text. Only the dense-only branch of
`run_retriever` is claim-bearing; the fusion itself is external. -/
def ensemble_merge (sparse dense : List Chunk) : List Chunk :=
  (sparse ++ dense).foldl
    (fun acc c =>
      if acc.any fun c0 => c0.page_content = c.page_content then acc
      else acc ++ [c]) []

/-- Running the retriever returned by `_get_retriever` on a query: the
dense search results are produced by the vector store, the sparse results
by the loaded BM25 retriever (both external, supplied as inputs); the
vector-only retriever returns the dense ranking unmodified. -/
def run_retriever (r : Retriever) (denseResults : List Chunk)
    (sparseResults : BM25Retriever → List Chunk) : List Chunk :=
  match r with
  | .vectorOnly _ => denseResults
  | .ensemble b _ => ensemble_merge (sparseResults b) denseResults

/-- The behaviour of the external model and retriever during one query:
`hyde` is the outcome of the hypothetical-document generation
(`(hyde_prompt | self.llm).invoke`), `docsFor` maps the retrieval input
text to the retrieved chunks, `genAnswer` is the one-shot answer chain
(`rag_chain.invoke` on context and question), and `genStream` its
streaming counterpart (`rag_chain.astream` token fragments). -/
structure QueryEnv where
  hyde : Except String String
  docsFor : String → List Chunk
  genAnswer : String → String → Except String String
  genStream : String → String → List String

/-- The fixed answer returned when retrieval finds no chunks. -/
def no_info_answer : String :=
  "I couldn\x27t find relevant information in your documents to answer the query."

/-- The context block built from the retrieved chunks
(`"\n\n---\n\n".join(...)`). -/
def join_context (docs : List Chunk) : String :=
  String.intercalate "\n\n---\n\n" (docs.map (·.page_content))

/-- `doc.metadata.get("source", "Unknown")`. -/
def source_label (c : Chunk) : String :=
  c.source.getD "Unknown"

/-- Insertion-ordered map update, as done by assignment into a Python
dict: a repeated key keeps its original position but takes the new
value. -/
def upsert_by_content (m : List (String × SourceInfo)) (k : String)
    (v : SourceInfo) : List (String × SourceInfo) :=
  match m with
  | [] => [(k, v)]
  | (k0, v0) :: rest =>
    if k0 = k then (k0, v) :: rest else (k0, v0) :: upsert_by_content rest k v

/-- The source de-duplication loop of `query` / `stream_query`: an
insertion-ordered dict keyed by `page_content`, whose values are listed
in order. -/
def dedup_sources (docs : List Chunk) : List SourceInfo :=
  (docs.foldl
      (fun m d =>
        upsert_by_content m d.page_content
          { content := d.page_content, source := source_label d }) []).map (·.2)

/-- The observable outcome of one `RAGService.query` call: the returned
(answer, sources) pair or the propagated exception, plus whether the
answer-generation chain (`rag_chain`) and the retriever were invoked. -/
structure QueryOutcome where
  result : Except String (String × List SourceInfo)
  generationInvoked : Bool
  retrieverInvoked : Bool

/-- `RAGService.query`, translated line by line: check the answer cache;
on a miss run the hypothetical-document rewrite (whose failure
propagates, there is no try/except around it), retrieve with the
rewritten text, return the fixed no-information answer on empty
retrieval, otherwise invoke the answer chain, de-duplicate the sources,
cache the result with a one-hour TTL and return it. -/
def query (projectId message : String) (now : Nat) (cache : Cache)
    (env : QueryEnv) : QueryOutcome × Cache :=
  let key := cache_key projectId message
  match redis_get key now cache with
  | some cached =>
    ({ result := .ok cached, generationInvoked := false,
       retrieverInvoked := false }, cache)
  | none =>
    match env.hyde with
    | .error e =>
      ({ result := .error e, generationInvoked := false,
         retrieverInvoked := false }, cache)
    | .ok hypothetical_doc =>
      let final_docs := env.docsFor hypothetical_doc
      if final_docs = [] then
        ({ result := .ok (no_info_answer, []), generationInvoked := false,
           retrieverInvoked := true }, cache)
      else
        let context_text := join_context final_docs
        match env.genAnswer context_text message with
        | .error e =>
          ({ result := .error e, generationInvoked := true,
             retrieverInvoked := true }, cache)
        | .ok answer =>
          let sources := dedup_sources final_docs
          ({ result := .ok (answer, sources), generationInvoked := true,
             retrieverInvoked := true },
           redis_set key answer sources now cache)

/-- What `RAGService.stream_query` hands back to its caller: a raised
exception (the rewrite and retrieval are awaited with no try/except), the
fixed empty-retrieval generator with empty sources, or the context and
de-duplicated sources from which the answer chain will stream. -/
inductive StreamQueryReturn where
  | fail (e : String)
  | noInfo
  | generate (context_text : String) (sources : List SourceInfo)
deriving DecidableEq, Repr

/-- `RAGService.stream_query`, translated line by line up to the point
where it returns the generator and the sources list. -/
def stream_query (message : String) (env : QueryEnv) : StreamQueryReturn :=
  match env.hyde with
  | .error e => .fail e
  | .ok hypothetical_doc =>
    let final_docs := env.docsFor hypothetical_doc
    if final_docs = [] then .noInfo
    else .generate (join_context final_docs) (dedup_sources final_docs)

/-- The sources list returned by `stream_query` alongside its
generator. -/
def stream_query_sources : StreamQueryReturn → List SourceInfo
  | .fail _ => []
  | .noInfo => []
  | .generate _ s => s

/-- The token fragments yielded by the generator `stream_query` returns:
the single fixed answer from `empty_generator` in the empty-retrieval
case, and the answer chain's streamed fragments otherwise. -/
def stream_tokens (r : StreamQueryReturn) (message : String) (env : QueryEnv) :
    List String :=
  match r with
  | .fail _ => []
  | .noInfo => [no_info_answer]
  | .generate context_text _ => env.genStream context_text message

/-- Whether the answer-generation chain is invoked when the generator
returned by `stream_query` is consumed. -/
def stream_generation_invoked : StreamQueryReturn → Bool
  | .generate _ _ => true
  | _ => false

/-- Test fixture: an environment in which the hypothetical-document
generation fails with a model error. -/
def env_model_down : QueryEnv :=
  { hyde := Except.error "model unavailable",
    docsFor := fun _ => [],
    genAnswer := fun _ _ => Except.ok "",
    genStream := fun _ _ => [] }

/-- Test fixture: an environment in which the rewrite succeeds but
retrieval finds no chunks. -/
def env_no_docs : QueryEnv :=
  { hyde := Except.ok "hypothetical",
    docsFor := fun _ => [],
    genAnswer := fun _ _ => Except.ok "generated",
    genStream := fun _ _ => ["generated"] }

/-- A server-sent event emitted by `handle_streaming_chat_query` in
`app/api/v1/chat.py`. -/
inductive Event where
  | start (chat_id : String)
  | sources (s : List SourceInfo)
  | token (t : String)
  | error (msg : String)
  | endEv
deriving DecidableEq, Repr

/-- An observable action of the streaming endpoint, in execution order:
creating a chat session, persisting a message to the conversation log
(`crud.create_chat_session` / `crud.add_chat_message`), or emitting an
event on the SSE channel. -/
inductive Action where
  | createSession
  | persistUser (content : String)
  | persistAssistant (content : String) (sources : List SourceInfo)
  | emit (e : Event)
deriving DecidableEq, Repr

/-- The user-safe message sent with the `error` event. -/
def stream_error_message : String :=
  "An error occurred while generating the response."

/-- How the body of the `try` block in `event_generator` plays out:
either `stream_query` (or the `sources` serialization) raises before any
source list is obtained (`earlyFail`), or it returns a source list and
the token loop then yields `tokens` before completing (`midFail = false`)
or raising mid-stream (`midFail = true`). -/
inductive StreamOutcome where
  | earlyFail (e : String)
  | run (sources : List SourceInfo) (tokens : List String) (midFail : Bool)
deriving DecidableEq, Repr

/-- The `finally` block of `event_generator`: persist the assistant
message when any tokens were accumulated (`if full_response:`), then
yield the `end` event. -/
def final_actions (full_response : String) (sources : List SourceInfo) :
    List Action :=
  (if full_response = "" then []
   else [Action.persistAssistant full_response sources]) ++
    [Action.emit Event.endEv]

/-- The trace of `event_generator` in `handle_streaming_chat_query`:
persist the user message, yield `start`, then run the `try` body (sources
event, token events, accumulating `full_response`), yield `error` on an
exception, and run the `finally` block. -/
def event_generator (chat_id query_text : String) (b : StreamOutcome) :
    List Action :=
  Action.persistUser query_text ::
  Action.emit (Event.start chat_id) ::
  match b with
  | .earlyFail _ =>
    Action.emit (Event.error stream_error_message) :: final_actions "" []
  | .run srcs toks midFail =>
    Action.emit (Event.sources srcs) ::
    ((toks.map fun t => Action.emit (Event.token t)) ++
      (if midFail then [Action.emit (Event.error stream_error_message)]
       else []) ++
      final_actions (String.join toks) srcs)

/-- The streaming endpoint `handle_streaming_chat_query`: resolves the
chat id (creating a session when the request carries none) before the
stream starts, then runs `event_generator`. Returns the resolved chat id
and the full action trace. -/
def handle_streaming_chat_query (request_chat_id : Option String)
    (new_session_id query_text : String) (b : StreamOutcome) :
    String × List Action :=
  match request_chat_id with
  | some cid => (cid, event_generator cid query_text b)
  | none =>
    (new_session_id,
     Action.createSession :: event_generator new_session_id query_text b)

/-- The events emitted on the SSE channel by a trace, in order. -/
def emitted_events (tr : List Action) : List Event :=
  tr.filterMap fun a =>
    match a with
    | .emit e => some e
    | _ => none

/-- Whether an event is the `end` event. -/
def is_end_event : Event → Bool
  | .endEv => true
  | _ => false

/-- Whether an event is an `error` event. -/
def is_error_event : Event → Bool
  | .error _ => true
  | _ => false

/-- The `end` events of an event sequence. -/
def end_events (evs : List Event) : List Event :=
  evs.filter is_end_event

/-- The `error` events of an event sequence. -/
def error_events (evs : List Event) : List Event :=
  evs.filter is_error_event

/-- The payloads of the `token` events of an event sequence, in order. -/
def token_payloads (evs : List Event) : List String :=
  evs.filterMap fun e =>
    match e with
    | .token t => some t
    | _ => none

/-- Whether the streamed request failed (an exception anywhere in the
`try` body). -/
def outcome_failed : StreamOutcome → Bool
  | .earlyFail _ => true
  | .run _ _ midFail => midFail

/-- The tokens successfully yielded during the request. -/
def outcome_tokens : StreamOutcome → List String
  | .earlyFail _ => []
  | .run _ toks _ => toks

/-- The value of the `sources` local at the time the `finally` block
runs: `[]` until `stream_query` returns, the returned list afterwards. -/
def outcome_sources : StreamOutcome → List SourceInfo
  | .earlyFail _ => []
  | .run srcs _ _ => srcs

/-- Modelled from the spec: the event ordering the specification asserts
for every streaming query — one `start` event (with the chat id) first,
one `sources` event second, then zero or more `token` events, then an
optional `error` event, then the final `end` event, with nothing after
it. `spec_tokens_tail` checks the part after the `sources` event. -/
def spec_tokens_tail : List Event → Bool
  | Event.token _ :: rest => spec_tokens_tail rest
  | [Event.error _, Event.endEv] => true
  | [Event.endEv] => true
  | _ => false

/-- Modelled from the spec: see `spec_tokens_tail`. -/
def spec_event_order (chat_id : String) (evs : List Event) : Bool :=
  match evs with
  | Event.start c :: Event.sources _ :: rest =>
    c = chat_id && spec_tokens_tail rest
  | _ => false

/-- A document row in the relational database, as read by the
`delete_document` endpoint in `app/api/v1/documents.py`. -/
structure DocRecord where
  id : String
  storage_key : String
  file_type : String
deriving DecidableEq, Repr

/-- The state visible to the document-deletion endpoint: the RAG state
(dense index and answer cache), the document table rows of the project,
object storage, and the queue of enqueued BM25 rebuild tasks. -/
structure AppState where
  rag : RagState
  docRecords : List DocRecord
  storage : Storage
  queued_rebuilds : List String
deriving DecidableEq, Repr

/-- The `delete_document` endpoint: 404 when the document row is absent;
otherwise delete the document's chunks (a call that never raises — see
`delete_document_chunks`), delete the stored file unless the document is
a URL (`text/html`), delete the database row, enqueue the BM25 rebuild
task and return 204. -/
def delete_document (projectId document_id : String) (o : ChromaOracle)
    (st : AppState) : Except Nat (Nat × AppState) :=
  match st.docRecords.find? fun r => r.id = document_id with
  | none => .error 404
  | some doc_to_delete =>
    let rag2 := delete_document_chunks projectId document_id o st.rag
    let storage2 :=
      if doc_to_delete.file_type = "text/html" then st.storage
      else storage_delete_file doc_to_delete.storage_key st.storage
    .ok (204,
      { rag := rag2,
        docRecords := st.docRecords.filter fun r => r.id ≠ document_id,
        storage := storage2,
        queued_rebuilds := st.queued_rebuilds ++ [projectId] })

/-! ### Helper lemmas -/

theorem filter_not_bool_filter {α : Type} (p : α → Bool) (l : List α) :
    (l.filter fun a => ! p a).filter p = [] := by
  induction l with
  | nil => rfl
  | cons a t ih => cases h : p a <;> simp [List.filter_cons, h, ih]

theorem filter_decide_not_filter {α : Type} (p : α → Prop) [DecidablePred p]
    (l : List α) : (l.filter fun a => ¬ p a).filter (fun a => p a) = [] := by
  induction l with
  | nil => rfl
  | cons a t ih => by_cases h : p a <;> simp [List.filter_cons, h, ih]

theorem find?_filter_not {α : Type} (p : α → Prop) [DecidablePred p]
    (l : List α) : (l.filter fun a => ¬ p a).find? (fun a => p a) = none := by
  induction l with
  | nil => rfl
  | cons a t ih => by_cases h : p a <;> simp [List.filter_cons, h, ih]

theorem collection_cache_entries_invalidate (projectId : String) (c : Cache) :
    collection_cache_entries projectId
      (invalidate_query_cache projectId RedisOracle.ok c) = [] := by
  unfold collection_cache_entries invalidate_query_cache
  exact filter_not_bool_filter _ c

theorem getLast?_append_singleton {α : Type} (l : List α) (a : α) :
    (l ++ [a]).getLast? = some a :=
  List.getLast?_concat l

@[simp] theorem emitted_events_nil : emitted_events [] = [] := rfl

@[simp] theorem emitted_events_emit (e : Event) (tr : List Action) :
    emitted_events (Action.emit e :: tr) = e :: emitted_events tr := by
  simp [emitted_events, List.filterMap_cons]

@[simp] theorem emitted_events_persistUser (c : String) (tr : List Action) :
    emitted_events (Action.persistUser c :: tr) = emitted_events tr := by
  simp [emitted_events, List.filterMap_cons]

@[simp] theorem emitted_events_persistAssistant (c : String)
    (s : List SourceInfo) (tr : List Action) :
    emitted_events (Action.persistAssistant c s :: tr) = emitted_events tr := by
  simp [emitted_events, List.filterMap_cons]

@[simp] theorem emitted_events_createSession (tr : List Action) :
    emitted_events (Action.createSession :: tr) = emitted_events tr := by
  simp [emitted_events, List.filterMap_cons]

@[simp] theorem emitted_events_append (l r : List Action) :
    emitted_events (l ++ r) = emitted_events l ++ emitted_events r := by
  simp [emitted_events, List.filterMap_append]

@[simp] theorem emitted_events_token_map (toks : List String) :
    emitted_events (toks.map fun t => Action.emit (Event.token t)) =
      toks.map Event.token := by
  induction toks with
  | nil => rfl
  | cons t ts ih => simp [ih]

@[simp] theorem filter_is_end_token_map (toks : List String) :
    (toks.map Event.token).filter is_end_event = [] := by
  induction toks with
  | nil => rfl
  | cons t ts ih => simp [List.filter_cons, is_end_event, ih]

@[simp] theorem filter_is_error_token_map (toks : List String) :
    (toks.map Event.token).filter is_error_event = [] := by
  induction toks with
  | nil => rfl
  | cons t ts ih => simp [List.filter_cons, is_error_event, ih]

@[simp] theorem token_payloads_token_map (toks : List String) (rest : List Event) :
    token_payloads (toks.map Event.token ++ rest) =
      toks ++ token_payloads rest := by
  induction toks with
  | nil => rfl
  | cons t ts ih => simp [token_payloads, List.filterMap_cons] at ih ⊢; exact ih

@[simp] theorem token_payloads_nil : token_payloads [] = [] := rfl

@[simp] theorem token_payloads_cons_start (c : String) (evs : List Event) :
    token_payloads (Event.start c :: evs) = token_payloads evs := by
  simp [token_payloads, List.filterMap_cons]

@[simp] theorem token_payloads_cons_sources (s : List SourceInfo)
    (evs : List Event) :
    token_payloads (Event.sources s :: evs) = token_payloads evs := by
  simp [token_payloads, List.filterMap_cons]

@[simp] theorem token_payloads_cons_error (m : String) (evs : List Event) :
    token_payloads (Event.error m :: evs) = token_payloads evs := by
  simp [token_payloads, List.filterMap_cons]

@[simp] theorem token_payloads_cons_end (evs : List Event) :
    token_payloads (Event.endEv :: evs) = token_payloads evs := by
  simp [token_payloads, List.filterMap_cons]

theorem storage_lookup_delete_self (key : String) (s : Storage) :
    storage_lookup key (storage_delete_file key s) = none := by
  simp [storage_lookup, storage_delete_file, List.find?_eq_none, List.mem_filter]

theorem storage_lookup_upload_self (key : String) (b : Blob) (s : Storage) :
    storage_lookup key (storage_upload key b s) = some b := by
  simp [storage_lookup, storage_upload]

theorem storage_lookup_delete_other (key k2 : String) (s : Storage)
    (h : k2 ≠ key) :
    storage_lookup k2 (storage_delete_file key s) = storage_lookup k2 s := by
  induction s with
  | nil => rfl
  | cons kv t ih =>
    by_cases hk : kv.1 = key <;> by_cases h2 : kv.1 = k2 <;>
      simp_all [storage_lookup, storage_delete_file, List.filter_cons]

theorem storage_lookup_upload_other (key k2 : String) (b : Blob) (s : Storage)
    (h : k2 ≠ key) :
    storage_lookup k2 (storage_upload key b s) = storage_lookup k2 s := by
  unfold storage_upload storage_lookup
  rw [List.find?_cons_of_neg _ (by simp [Ne.symm h])]
  exact storage_lookup_delete_other key k2 s h

/-! ### Claim theorems -/

/-- C7: for every `document_id`, `delete_document_chunks` removes every
chunk whose metadata references that document from the dense index,
keeps every other chunk, is a no-op when no such chunks exist, and is
idempotent. -/
theorem delete_document_chunks_removes_all_and_idempotent
    (projectId document_id : String) (st : RagState) :
    ((delete_document_chunks projectId document_id ChromaOracle.ok st).chunks.filter
        (fun c => c.document_id = document_id) = []) ∧
    (∀ c ∈ st.chunks, c.document_id ≠ document_id →
      c ∈ (delete_document_chunks projectId document_id ChromaOracle.ok st).chunks) ∧
    (st.chunks.filter (fun c => c.document_id = document_id) = [] →
      delete_document_chunks projectId document_id ChromaOracle.ok st = st) ∧
    (delete_document_chunks projectId document_id ChromaOracle.ok
        (delete_document_chunks projectId document_id ChromaOracle.ok st) =
      delete_document_chunks projectId document_id ChromaOracle.ok st) := by
  by_cases hids : st.chunks.filter (fun c => c.document_id = document_id) = []
  · constructor
    · simp [delete_document_chunks, hids]
    · constructor
      · intro c hc _
        simp [delete_document_chunks, hids]
        exact hc
      · constructor
        · intro _
          simp [delete_document_chunks, hids]
        · simp [delete_document_chunks, hids]
  · have hres : delete_document_chunks projectId document_id ChromaOracle.ok st =
      { chunks := st.chunks.filter fun c => c.document_id ≠ document_id,
        cache := invalidate_query_cache projectId RedisOracle.ok st.cache } := by
      simp [delete_document_chunks, hids]
    have hclean : (st.chunks.filter fun c => c.document_id ≠ document_id).filter
        (fun c => c.document_id = document_id) = [] :=
      filter_decide_not_filter (fun c => c.document_id = document_id) st.chunks
    constructor
    · rw [hres]
      exact hclean
    · constructor
      · intro c hc hne
        rw [hres]
        simp [List.mem_filter]
        exact ⟨hc, hne⟩
      · constructor
        · intro h
          exact absurd h hids
        · rw [hres]
          simp [delete_document_chunks, hclean]

/-- C7 witness: a concrete state holding chunks of two documents. -/
theorem delete_document_chunks_removes_all_and_idempotent_witness :
    ((delete_document_chunks "p" "d" ChromaOracle.ok
        { chunks := [{ page_content := "t", document_id := "d", source := some "s" },
                     { page_content := "u", document_id := "e", source := none }],
          cache := [] }).chunks.filter (fun c => c.document_id = "d") = []) ∧
    ({ page_content := "u", document_id := "e", source := none : Chunk } ∈
      (delete_document_chunks "p" "d" ChromaOracle.ok
        { chunks := [{ page_content := "t", document_id := "d", source := some "s" },
                     { page_content := "u", document_id := "e", source := none }],
          cache := [] }).chunks) := by
  refine ⟨(delete_document_chunks_removes_all_and_idempotent "p" "d" _).1, ?_⟩
  exact (delete_document_chunks_removes_all_and_idempotent "p" "d"
      { chunks := [{ page_content := "t", document_id := "d", source := some "s" },
                   { page_content := "u", document_id := "e", source := none }],
        cache := [] }).2.1
    { page_content := "u", document_id := "e", source := none }
    (by simp) (by decide)

/-- C9: `delete_document_chunks` never raises (every exception in the
dense-index deletion or the cache invalidation is caught), so the
document-removal endpoint deletes the document record and returns 204
for every oracle, including the one where the chunk deletion failed and
the RAG state (chunks and cache) is left untouched. -/
theorem delete_document_returns_204_despite_chunk_failure
    (projectId document_id : String) (o : ChromaOracle) (st : AppState)
    (doc_to_delete : DocRecord)
    (hfound : st.docRecords.find? (fun r => r.id = document_id) =
      some doc_to_delete) :
    ∃ st2, delete_document projectId document_id o st = Except.ok (204, st2) ∧
      st2.docRecords.find? (fun r => r.id = document_id) = none ∧
      (o = ChromaOracle.chromaFails → st2.rag = st.rag) := by
  refine ⟨{ rag := delete_document_chunks projectId document_id o st.rag,
            docRecords := st.docRecords.filter fun r => r.id ≠ document_id,
            storage := if doc_to_delete.file_type = "text/html" then st.storage
              else storage_delete_file doc_to_delete.storage_key st.storage,
            queued_rebuilds := st.queued_rebuilds ++ [projectId] }, ?_, ?_, ?_⟩
  · simp only [delete_document, hfound]
  · exact find?_filter_not (fun r : DocRecord => r.id = document_id) st.docRecords
  · intro ho
    subst ho
    rfl

/-- C9 witness: a state with one document record whose chunks are still
in the dense index, with the Chroma deletion failing. -/
theorem delete_document_returns_204_despite_chunk_failure_witness :
    ∃ st2, delete_document "p" "d" ChromaOracle.chromaFails
        { rag := { chunks := [{ page_content := "t", document_id := "d",
                                source := some "s" }],
                   cache := [{ key := "rag_cache:p:0", answer := "a",
                               sources := [], expiresAt := 7 }] },
          docRecords := [{ id := "d", storage_key := "k",
                           file_type := "application/pdf" }],
          storage := [], queued_rebuilds := [] } = Except.ok (204, st2) ∧
      st2.docRecords.find? (fun r => r.id = "d") = none ∧
      (ChromaOracle.chromaFails = ChromaOracle.chromaFails →
        st2.rag = { chunks := [{ page_content := "t", document_id := "d",
                                 source := some "s" }],
                    cache := [{ key := "rag_cache:p:0", answer := "a",
                                sources := [], expiresAt := 7 }] }) :=
  delete_document_returns_204_despite_chunk_failure "p" "d"
    ChromaOracle.chromaFails _
    { id := "d", storage_key := "k", file_type := "application/pdf" }
    (by decide)

/-- C10: for every streaming query, the session is created (when no chat
id was supplied) and the user's message is persisted before the `start`
event is emitted: the endpoint's action trace begins with the optional
session creation, then the user-message persist, then the `start` emit,
for every stream outcome — including an immediate failure with no
tokens. -/
theorem user_message_persisted_before_start
    (request_chat_id : Option String) (new_session_id query_text : String)
    (b : StreamOutcome) :
    ∃ rest,
      (handle_streaming_chat_query request_chat_id new_session_id query_text
          b).2 =
        (match request_chat_id with
         | some _ => []
         | none => [Action.createSession]) ++
          Action.persistUser query_text ::
          Action.emit (Event.start
            (handle_streaming_chat_query request_chat_id new_session_id
              query_text b).1) :: rest := by
  cases request_chat_id <;> exact ⟨_, rfl⟩

/-- C3 counterexample: with the Redis client absent (`self.redis_client`
is `None`, the guard at the top of `_invalidate_query_cache`), an
ingestion completes — the chunk is added to the dense index — while the
collection's answer-cache entry survives untouched, so a cache entry for
the collection does survive a completed mutation. -/
theorem cache_survives_mutation_counterexample :
    (process_document "p" "d" "f" RedisOracle.unavailable [("t", none)]
      { chunks := [],
        cache := [{ key := "rag_cache:p:stale", answer := "a", sources := [],
                    expiresAt := 9 }] }).chunks =
      [{ page_content := "t", document_id := "d", source := some "f" }] ∧
    collection_cache_entries "p"
      (process_document "p" "d" "f" RedisOracle.unavailable [("t", none)]
        { chunks := [],
          cache := [{ key := "rag_cache:p:stale", answer := "a",
                      sources := [], expiresAt := 9 }] }).cache =
      [{ key := "rag_cache:p:stale", answer := "a", sources := [],
         expiresAt := 9 }] := by
  decide

/-- C3 amended: every chunk mutation — a successful ingestion and a
chunk deletion that found chunks — calls the cache invalidation before
returning, and when the Redis client is available and its scan/delete
succeeds this removes every answer-cache entry for the collection before
the operation reports success; when the client is absent, or the
scan/delete raises (the exception is swallowed), the mutation still
completes with the collection's cache entries surviving unchanged. -/
theorem cache_invalidated_on_chunk_mutation
    (projectId document_id source_default : String)
    (rawChunks : List (String × Option String)) (st : RagState)
    (hIngest : rawChunks ≠ [])
    (hHas : st.chunks.filter (fun c => c.document_id = document_id) ≠ []) :
    collection_cache_entries projectId
      (process_document projectId document_id source_default RedisOracle.ok
        rawChunks st).cache = [] ∧
    collection_cache_entries projectId
      (delete_document_chunks projectId document_id ChromaOracle.ok
        st).cache = [] ∧
    (process_document projectId document_id source_default
        RedisOracle.unavailable rawChunks st).cache = st.cache ∧
    (process_document projectId document_id source_default
        RedisOracle.scanFails rawChunks st).cache = st.cache ∧
    (delete_document_chunks projectId document_id ChromaOracle.redisFails
        st).cache = st.cache := by
  refine ⟨?_, ?_, ?_, ?_, ?_⟩
  · simp [process_document, hIngest, collection_cache_entries_invalidate]
  · simp [delete_document_chunks, hHas, collection_cache_entries_invalidate]
  · simp [process_document, hIngest, invalidate_query_cache]
  · simp [process_document, hIngest, invalidate_query_cache]
  · simp [delete_document_chunks, hHas, invalidate_query_cache]

/-- C3 amended witness: one ingested chunk and one deletable chunk, with
a cache entry in the collection's namespace and the Redis client
available. -/
theorem cache_invalidated_on_chunk_mutation_witness :
    collection_cache_entries "p"
      (process_document "p" "d" "f" RedisOracle.ok [("txt", none)]
        { chunks := [{ page_content := "t", document_id := "d",
                       source := none }],
          cache := [{ key := "rag_cache:p:123", answer := "a", sources := [],
                      expiresAt := 9 }] }).cache = [] ∧
    collection_cache_entries "p"
      (delete_document_chunks "p" "d" ChromaOracle.ok
        { chunks := [{ page_content := "t", document_id := "d",
                       source := none }],
          cache := [{ key := "rag_cache:p:123", answer := "a", sources := [],
                      expiresAt := 9 }] }).cache = [] :=
  ⟨(cache_invalidated_on_chunk_mutation "p" "d" "f" _ _ (by simp)
      (by decide)).1,
   (cache_invalidated_on_chunk_mutation "p" "d" "f" [("txt", none)] _
      (by simp) (by decide)).2.1⟩

/-- C4: when the persisted sparse-index blob is absent or fails to
deserialize, `_get_retriever` returns the vector-only retriever and
retrieval returns the dense ranking unmodified; both functions are
total, so no error reaches the caller. -/
theorem sparse_absent_or_corrupt_is_dense_only (projectId : String)
    (storage : Storage)
    (h : storage_lookup (get_bm25_retriever_storage_key projectId) storage =
        none ∨
      storage_lookup (get_bm25_retriever_storage_key projectId) storage =
        some Blob.corrupt) :
    get_retriever projectId storage = Retriever.vectorOnly 5 ∧
    ∀ (denseResults : List Chunk)
      (sparseResults : BM25Retriever → List Chunk),
      run_retriever (get_retriever projectId storage) denseResults
        sparseResults = denseResults := by
  have hl : load_bm25_retriever projectId storage = none := by
    rcases h with h | h <;> simp [load_bm25_retriever, h]
  refine ⟨by simp [get_retriever, hl], fun dense sparse => ?_⟩
  simp [run_retriever, get_retriever, hl]

/-- C4 witness: an empty storage (absent blob) and a storage holding a
corrupt blob at the fixed key. -/
theorem sparse_absent_or_corrupt_is_dense_only_witness :
    get_retriever "p" [] = Retriever.vectorOnly 5 ∧
    run_retriever
      (get_retriever "p" [(get_bm25_retriever_storage_key "p", Blob.corrupt)])
      [{ page_content := "t", document_id := "d", source := none }]
      (fun b => b.docs) =
      [{ page_content := "t", document_id := "d", source := none }] :=
  ⟨(sparse_absent_or_corrupt_is_dense_only "p" [] (Or.inl rfl)).1,
   (sparse_absent_or_corrupt_is_dense_only "p" _
      (Or.inr (by simp [storage_lookup]))).2 _ _⟩

/-- C5: a sparse-index rebuild deletes the stored blob when the dense
index holds zero chunks, otherwise persists a structure built from all
chunks currently in the dense index under the collection's single fixed
blob key (overwriting whatever was there); no other key is touched. -/
theorem rebuild_bm25_snapshot (projectId : String) (st : RagState)
    (storage : Storage) :
    (st.chunks = [] →
      storage_lookup (get_bm25_retriever_storage_key projectId)
        (rebuild_and_persist_bm25_index projectId st storage) = none) ∧
    (st.chunks ≠ [] →
      storage_lookup (get_bm25_retriever_storage_key projectId)
        (rebuild_and_persist_bm25_index projectId st storage) =
        some (Blob.valid { docs := st.chunks, k := 5 })) ∧
    (∀ k2, k2 ≠ get_bm25_retriever_storage_key projectId →
      storage_lookup k2 (rebuild_and_persist_bm25_index projectId st storage) =
        storage_lookup k2 storage) := by
  by_cases h : st.chunks = []
  · refine ⟨fun _ => ?_, fun hne => absurd h hne, fun k2 hk => ?_⟩
    · simp only [rebuild_and_persist_bm25_index,
        get_all_project_docs_from_chroma, h, if_pos]
      exact storage_lookup_delete_self _ _
    · simp only [rebuild_and_persist_bm25_index,
        get_all_project_docs_from_chroma, h, if_pos]
      exact storage_lookup_delete_other _ _ _ hk
  · refine ⟨fun he => absurd he h, fun _ => ?_, fun k2 hk => ?_⟩
    · simp only [rebuild_and_persist_bm25_index,
        get_all_project_docs_from_chroma, if_neg h]
      exact storage_lookup_upload_self _ _ _
    · simp only [rebuild_and_persist_bm25_index,
        get_all_project_docs_from_chroma, if_neg h]
      exact storage_lookup_upload_other _ _ _ _ hk

/-- C5 witness: an emptied collection whose stale blob is deleted, and a
one-chunk collection whose snapshot is persisted. -/
theorem rebuild_bm25_snapshot_witness :
    storage_lookup (get_bm25_retriever_storage_key "p")
      (rebuild_and_persist_bm25_index "p" { chunks := [], cache := [] }
        [(get_bm25_retriever_storage_key "p", Blob.corrupt)]) = none ∧
    storage_lookup (get_bm25_retriever_storage_key "p")
      (rebuild_and_persist_bm25_index "p"
        { chunks := [{ page_content := "t", document_id := "d",
                       source := none }],
          cache := [] } []) =
      some (Blob.valid { docs := [{ page_content := "t", document_id := "d",
                                    source := none }], k := 5 }) :=
  ⟨(rebuild_bm25_snapshot "p" { chunks := [], cache := [] } _).1 rfl,
   (rebuild_bm25_snapshot "p" _ []).2.1 (by simp)⟩

/-- C8: the answer-cache key is a deterministic digest of the collection
identity and the query text (whose only normalization in the code is its
byte encoding): equal query texts give equal keys, and a `set` under one
key is observed by a `get` under the other within the one-hour TTL. -/
theorem cache_key_deterministic_roundtrip (projectId m1 m2 answer : String)
    (sources : List SourceInfo) (now t : Nat) (cache : Cache)
    (heq : m1 = m2) (httl : t < now + 3600) :
    cache_key projectId m1 = cache_key projectId m2 ∧
    redis_get (cache_key projectId m2) t
      (redis_set (cache_key projectId m1) answer sources now cache) =
      some (answer, sources) := by
  subst heq
  refine ⟨rfl, ?_⟩
  simp [redis_get, redis_set, httl]

/-- C8 witness: a concrete put-then-get round trip inside the TTL. -/
theorem cache_key_deterministic_roundtrip_witness :
    cache_key "p" "q" = cache_key "p" "q" ∧
    redis_get (cache_key "p" "q") 5
      (redis_set (cache_key "p" "q") "ans" [] 0 []) = some ("ans", []) :=
  cache_key_deterministic_roundtrip "p" "q" "q" "ans" [] 0 5 [] rfl (by decide)

/-- C2 counterexample: when the query-rewriting (hypothetical-document)
step fails with a model error, the one-shot query returns that error —
the retriever is never invoked — and the streaming query raises before
returning its generator; retrieval does not proceed with the raw query,
contrary to the claim. -/
theorem hyde_failure_aborts_counterexample :
    (query "p" "q" 0 [] env_model_down).1.result =
      Except.error "model unavailable" ∧
    (query "p" "q" 0 [] env_model_down).1.retrieverInvoked = false ∧
    stream_query "q" env_model_down =
      StreamQueryReturn.fail "model unavailable" :=
  ⟨rfl, rfl, rfl⟩

/-- C2 amended: if the query-rewriting step fails with a model error (on
a cache miss, so the rewrite is reached), the error propagates: the
one-shot query returns the error without invoking the retriever or the
answer chain and without touching the cache, and the streaming query
raises before returning its generator; there is no fallback to the raw
query text. -/
theorem hyde_failure_aborts (projectId message : String) (now : Nat)
    (cache : Cache) (env : QueryEnv) (e : String)
    (hmiss : redis_get (cache_key projectId message) now cache = none)
    (hhyde : env.hyde = Except.error e) :
    (query projectId message now cache env).1.result = Except.error e ∧
    (query projectId message now cache env).1.retrieverInvoked = false ∧
    (query projectId message now cache env).1.generationInvoked = false ∧
    (query projectId message now cache env).2 = cache ∧
    stream_query message env = StreamQueryReturn.fail e := by
  simp [query, hmiss, hhyde, stream_query]

/-- C2 amended witness: the failing-rewrite environment on an empty
cache. -/
theorem hyde_failure_aborts_witness :
    (query "p" "q" 0 [] env_model_down).1.result =
      Except.error "model unavailable" ∧
    (query "p" "q" 0 [] env_model_down).1.retrieverInvoked = false ∧
    (query "p" "q" 0 [] env_model_down).1.generationInvoked = false ∧
    (query "p" "q" 0 [] env_model_down).2 = [] ∧
    stream_query "q" env_model_down =
      StreamQueryReturn.fail "model unavailable" :=
  hyde_failure_aborts "p" "q" 0 [] env_model_down "model unavailable" rfl rfl

/-- C6: when retrieval returns no chunks (on a cache miss, with the
rewrite succeeding), the one-shot query returns the fixed
no-relevant-information answer with an empty source list without
invoking the answer-generation chain or writing to the cache, and the
streaming query returns the fixed generator that yields exactly that
answer with an empty source list, never invoking the answer-generation
chain. (The hypothetical-document rewrite is the separate Query
Rewriter step and necessarily ran before retrieval.) -/
theorem empty_retrieval_skips_generation (projectId message hypo : String)
    (now : Nat) (cache : Cache) (env : QueryEnv)
    (hmiss : redis_get (cache_key projectId message) now cache = none)
    (hhyde : env.hyde = Except.ok hypo)
    (hdocs : env.docsFor hypo = []) :
    (query projectId message now cache env).1.result =
      Except.ok (no_info_answer, []) ∧
    (query projectId message now cache env).1.generationInvoked = false ∧
    (query projectId message now cache env).2 = cache ∧
    stream_query message env = StreamQueryReturn.noInfo ∧
    stream_query_sources (stream_query message env) = [] ∧
    stream_tokens (stream_query message env) message env = [no_info_answer] ∧
    stream_generation_invoked (stream_query message env) = false := by
  simp [query, hmiss, hhyde, hdocs, stream_query, stream_query_sources,
    stream_tokens, stream_generation_invoked]

/-- C6 witness: the empty-retrieval environment on an empty cache. -/
theorem empty_retrieval_skips_generation_witness :
    (query "p" "q" 0 [] env_no_docs).1.result =
      Except.ok (no_info_answer, []) ∧
    (query "p" "q" 0 [] env_no_docs).1.generationInvoked = false ∧
    (query "p" "q" 0 [] env_no_docs).2 = [] ∧
    stream_query "q" env_no_docs = StreamQueryReturn.noInfo ∧
    stream_query_sources (stream_query "q" env_no_docs) = [] ∧
    stream_tokens (stream_query "q" env_no_docs) "q" env_no_docs =
      [no_info_answer] ∧
    stream_generation_invoked (stream_query "q" env_no_docs) = false :=
  empty_retrieval_skips_generation "p" "q" "hypothetical" 0 [] env_no_docs
    rfl rfl rfl

/-- C1 counterexample: when `stream_query` raises before returning (for
example a rewrite-model error), the emitted event sequence is
`[start, error, end]` — there is no `sources` event — so the claimed
fixed order "start, sources, token*, error?, end" does not hold for this
streaming query. -/
theorem stream_event_order_counterexample :
    spec_event_order "c"
      (emitted_events
        (handle_streaming_chat_query (some "c") "n" "q"
          (StreamOutcome.earlyFail "boom")).2) = false := by
  rfl

/-- C1 amended: for every streaming query the emitted sequence starts
with one `start` event (carrying the chat id) and ends with the single
`end` event; exactly one `error` event is emitted iff the request
failed; the token payloads are the successfully generated fragments in
model-emission order; the second event is the `sources` event whenever
`stream_query` returned (on a failure before that, it is the `error`
event and no `sources` event exists); and whenever any tokens were
produced their concatenation is persisted as the assistant's message
immediately before the `end` event, also when an error occurred
mid-stream. -/
theorem stream_event_sequence (chat_id query_text : String)
    (b : StreamOutcome) :
    (emitted_events (event_generator chat_id query_text b)).head? =
      some (Event.start chat_id) ∧
    (emitted_events (event_generator chat_id query_text b)).getLast? =
      some Event.endEv ∧
    end_events (emitted_events (event_generator chat_id query_text b)) =
      [Event.endEv] ∧
    error_events (emitted_events (event_generator chat_id query_text b)) =
      (if outcome_failed b then [Event.error stream_error_message]
       else []) ∧
    token_payloads (emitted_events (event_generator chat_id query_text b)) =
      outcome_tokens b ∧
    (emitted_events (event_generator chat_id query_text b))[1]? =
      some (match b with
        | .earlyFail _ => Event.error stream_error_message
        | .run srcs _ _ => Event.sources srcs) ∧
    (String.join (outcome_tokens b) ≠ "" →
      ∃ pre, event_generator chat_id query_text b =
        pre ++ [Action.persistAssistant (String.join (outcome_tokens b))
                  (outcome_sources b),
                Action.emit Event.endEv]) := by
  cases b with
  | earlyFail e =>
    refine ⟨?_, ?_, ?_, ?_, ?_, ?_, fun h => absurd rfl h⟩ <;>
      simp [event_generator, final_actions, end_events, error_events,
        is_end_event, is_error_event, outcome_failed, outcome_tokens,
        List.filter_cons]
  | run srcs toks midFail =>
    cases midFail with
    | false =>
      have hev : emitted_events
          (event_generator chat_id query_text (.run srcs toks false)) =
          Event.start chat_id :: Event.sources srcs ::
            (toks.map Event.token ++ [Event.endEv]) := by
        by_cases hj : String.join toks = "" <;>
          simp [event_generator, final_actions, hj]
      refine ⟨by rw [hev]; rfl, ?_, ?_, ?_, ?_, by rw [hev]; simp, ?_⟩
      · rw [hev, show Event.start chat_id :: Event.sources srcs ::
            (toks.map Event.token ++ [Event.endEv]) =
            (Event.start chat_id :: Event.sources srcs ::
              toks.map Event.token) ++ [Event.endEv] by simp]
        exact getLast?_append_singleton _ _
      · rw [hev]
        simp [end_events, List.filter_cons, List.filter_append, is_end_event]
      · rw [hev]
        simp [error_events, List.filter_cons, List.filter_append,
          is_error_event, outcome_failed]
      · rw [hev]
        simp [outcome_tokens]
      · intro h
        simp only [outcome_tokens] at h
        refine ⟨Action.persistUser query_text ::
          Action.emit (Event.start chat_id) ::
          Action.emit (Event.sources srcs) ::
          toks.map (fun t => Action.emit (Event.token t)), ?_⟩
        simp [event_generator, final_actions, outcome_tokens,
          outcome_sources, h]
    | true =>
      have hev : emitted_events
          (event_generator chat_id query_text (.run srcs toks true)) =
          Event.start chat_id :: Event.sources srcs ::
            (toks.map Event.token ++
              [Event.error stream_error_message, Event.endEv]) := by
        by_cases hj : String.join toks = "" <;>
          simp [event_generator, final_actions, hj]
      refine ⟨by rw [hev]; rfl, ?_, ?_, ?_, ?_, by rw [hev]; simp, ?_⟩
      · rw [hev, show Event.start chat_id :: Event.sources srcs ::
            (toks.map Event.token ++
              [Event.error stream_error_message, Event.endEv]) =
            (Event.start chat_id :: Event.sources srcs ::
              (toks.map Event.token ++
                [Event.error stream_error_message])) ++ [Event.endEv] by simp]
        exact getLast?_append_singleton _ _
      · rw [hev]
        simp [end_events, List.filter_cons, List.filter_append, is_end_event]
      · rw [hev]
        simp [error_events, List.filter_cons, List.filter_append,
          is_error_event, outcome_failed]
      · rw [hev]
        simp [outcome_tokens]
      · intro h
        simp only [outcome_tokens] at h
        refine ⟨Action.persistUser query_text ::
          Action.emit (Event.start chat_id) ::
          Action.emit (Event.sources srcs) ::
          (toks.map (fun t => Action.emit (Event.token t)) ++
            [Action.emit (Event.error stream_error_message)]), ?_⟩
        simp [event_generator, final_actions, outcome_tokens,
          outcome_sources, h]

/-- C1 amended witness: a run that yields two tokens and then fails
mid-stream — the concatenated tokens are still persisted right before
the `end` event. -/
theorem stream_event_sequence_witness :
    ∃ pre, event_generator "c" "q"
        (StreamOutcome.run [{ content := "t", source := "s" }] ["he", "llo"]
          true) =
      pre ++ [Action.persistAssistant
                (String.join (outcome_tokens
                  (StreamOutcome.run [{ content := "t", source := "s" }]
                    ["he", "llo"] true)))
                (outcome_sources
                  (StreamOutcome.run [{ content := "t", source := "s" }]
                    ["he", "llo"] true)),
              Action.emit Event.endEv] :=
  (stream_event_sequence "c" "q"
      (StreamOutcome.run [{ content := "t", source := "s" }] ["he", "llo"]
        true)).2.2.2.2.2.2 (by decide)

end ChatDocs
